import Mathlib

/-!
Verification of the cloud-provider object-storage abstraction.

The development shallowly embeds the Python sources under `src/cloud`:
the `AzureStorage` adapter (`azure/azure_storage.py`), the
`AzureProvider` (`azure/azure_provider.py`), the `ProviderFactory`
(`provider_factory.py`) and the `CloudProvider` facade
(`cloud_provider.py`).

The vendor SDK (azure-storage-blob) is the external collaborator: its
primitives (`download_blob`, `list_blobs`, `start_copy_from_url`,
`upload_blob`) are modelled as functions over an explicit backend state
`AzureBackend`, raising the documented exception classes. Python
exception propagation is modelled with `Except`; byte payloads are
`List Nat`; the local filesystem touched by `download_object` and
`upload_object` is an explicit `FS` state.
-/

instance {e a : Type} [DecidableEq e] [DecidableEq a] :
    DecidableEq (Except e a) := fun x y =>
  match x, y with
  | .ok v, .ok w =>
    if h : v = w then .isTrue (by rw [h]) else
      .isFalse (fun hc => h (Except.ok.inj hc))
  | .error v, .error w =>
    if h : v = w then .isTrue (by rw [h]) else
      .isFalse (fun hc => h (Except.error.inj hc))
  | .ok _, .error _ => .isFalse (fun hc => Except.noConfusion hc)
  | .error _, .ok _ => .isFalse (fun hc => Except.noConfusion hc)

/-- Python-level exceptions that the embedded code can raise:
the azure SDK classes (`ResourceNotFoundError`, `ResourceExistsError`,
`HttpResponseError`) and the builtin Python classes the adapter itself
raises (`FileNotFoundError`, `TypeError`, `ValueError`). -/
inductive PyExc where
  | resourceNotFound (msg : String)
  | resourceExists (msg : String)
  | httpResponseError (msg : String)
  | fileNotFound (msg : String)
  | typeError (msg : String)
  | valueError (msg : String)
deriving DecidableEq, Repr

/-- The remote blob store together with injectable backend faults.
`blobs` maps (container, key) to byte content; `downloadFault` and
`listFault`, when set, make the corresponding SDK call raise a generic
`HttpResponseError` (network failure, throttling, permissions), which
is how non-not-found backend failures reach the adapter. -/
structure AzureBackend where
  blobs : List (String × String × List Nat)
  downloadFault : Option String
  listFault : Option String
deriving DecidableEq, Repr

/-- Look up the content stored for (container, key). -/
def lookupBlob (bs : List (String × String × List Nat)) (c k : String) :
    Option (List Nat) :=
  match bs.find? (fun e => e.1 == c && e.2.1 == k) with
  | some e => some e.2.2
  | none => none

/-- Store content at (container, key), replacing any previous entry. -/
def setBlob (bs : List (String × String × List Nat)) (c k : String)
    (d : List Nat) : List (String × String × List Nat) :=
  (c, k, d) :: bs.filter (fun e => !(e.1 == c && e.2.1 == k))

theorem lookupBlob_setBlob (bs : List (String × String × List Nat))
    (c k : String) (d : List Nat) :
    lookupBlob (setBlob bs c k d) c k = some d := by
  simp [lookupBlob, setBlob, List.find?]

/-- The local filesystem state seen by the adapter: regular files with
their byte content, and the set of directories that exist. -/
structure FS where
  files : List (String × List Nat)
  dirs : List String
deriving DecidableEq, Repr

/-- Look up the content of a local file. -/
def lookupFile (fsf : List (String × List Nat)) (p : String) :
    Option (List Nat) :=
  match fsf.find? (fun e => e.1 == p) with
  | some e => some e.2
  | none => none

/-- Create or overwrite a local file with the given content. -/
def setFile (fsf : List (String × List Nat)) (p : String) (d : List Nat) :
    List (String × List Nat) :=
  (p, d) :: fsf.filter (fun e => !(e.1 == p))

theorem lookupFile_setFile (fsf : List (String × List Nat)) (p : String)
    (d : List Nat) : lookupFile (setFile fsf p d) p = some d := by
  simp [lookupFile, setFile, List.find?]

/-- SDK primitive: `blob_client.download_blob(...).readall()`. Raises
`ResourceNotFoundError` when the blob is absent, a generic
`HttpResponseError` when a backend fault is injected, and returns the
full byte content otherwise. -/
def download_blob (b : AzureBackend) (c k : String) :
    Except PyExc (List Nat) :=
  match b.downloadFault with
  | some m => .error (.httpResponseError m)
  | none =>
    match lookupBlob b.blobs c k with
    | some d => .ok d
    | none => .error (.resourceNotFound "The specified blob does not exist.")

namespace AzureStorage

/-- Embeds `AzureStorage.get_object` (azure_storage.py lines 149-173):
download the blob content, wrap it in a BytesIO buffer, and return
None when the SDK raises `ResourceNotFoundError`; every other
exception propagates. -/
def get_object (b : AzureBackend) (container_name object_key : String) :
    Except PyExc (Option (List Nat)) :=
  match download_blob b container_name object_key with
  | .ok d => .ok (some d)
  | .error (.resourceNotFound _) => .ok none
  | .error e => .error e

end AzureStorage

/-- Embeds Python `os.path.dirname` (posixpath): everything up to the
last slash; a head consisting only of slashes is kept, otherwise
trailing slashes are stripped; the empty string when there is no
slash. -/
def pyDirname (p : String) : String :=
  match p.data.reverse.findIdx? (fun ch => ch = '/') with
  | none => ""
  | some ridx =>
    let head := p.data.take (p.data.length - ridx)
    if head.all (fun ch => ch = '/') then String.mk head
    else String.mk (head.reverse.dropWhile (fun ch => ch = '/')).reverse

/-- Embeds `os.makedirs(d, exist_ok=True)` on the `FS` state: with the
empty string it raises `FileNotFoundError` (errno ENOENT on the empty
path), otherwise it records the directory as existing. -/
def makedirs (fs : FS) (d : String) : Except PyExc FS :=
  if d = "" then
    .error (.fileNotFound "No such file or directory: ")
  else
    .ok { fs with dirs := d :: fs.dirs }

namespace AzureStorage

/-- Embeds `AzureStorage.download_object` (azure_storage.py lines
116-147). Inside the try block: create the parent directories of
`download_path`, open the path for writing (which creates the file
and truncates it to empty), then download the blob content and write
it. `ResourceNotFoundError` is translated to `FileNotFoundError`; the
other exceptions propagate unchanged. The returned pair is the Python
outcome and the filesystem left behind. -/
def download_object (b : AzureBackend) (fs : FS)
    (container_name object_key download_path : String) :
    Except PyExc Unit × FS :=
  match makedirs fs (pyDirname download_path) with
  | .error e => (.error e, fs)
  | .ok fs1 =>
    let fs2 : FS := { fs1 with files := setFile fs1.files download_path [] }
    match download_blob b container_name object_key with
    | .ok d =>
      (.ok (), { fs2 with files := setFile fs2.files download_path d })
    | .error (.resourceNotFound _) =>
      (.error (.fileNotFound
        ("Blob not found: " ++ container_name ++ "/" ++ object_key)), fs2)
    | .error e => (.error e, fs2)

end AzureStorage

/-- Decides whether the string `s` starts with `pre`, on the
underlying character lists. -/
def strStarts (pre s : String) : Bool :=
  List.isPrefixOf pre.data s.data

/-- SDK primitive: `container_client.list_blobs(name_starts_with=pre)`.
Raises when a backend fault is injected; otherwise yields the keys in
the container that start with the given prefix, in store order. -/
def list_blobs (b : AzureBackend) (container_name pre : String) :
    Except PyExc (List String) :=
  match b.listFault with
  | some m => .error (.httpResponseError m)
  | none =>
    .ok ((b.blobs.filter
      (fun e => e.1 == container_name && strStarts pre e.2.1)).map
        (fun e => e.2.1))

namespace AzureStorage

/-- Embeds `AzureStorage.list_objects` (azure_storage.py lines
175-199): iterate the listing and collect the blob names; no exception
handling, so backend failures propagate. -/
def list_objects (b : AzureBackend) (container_name pre : String) :
    Except PyExc (List String) :=
  match list_blobs b container_name pre with
  | .ok l => .ok l
  | .error e => .error e

/-- Embeds `AzureStorage.objects_exist` (azure_storage.py lines
201-234): iterate the listing and return True on the first item, False
when it is exhausted; `except Exception` turns every failure into
False. -/
def objects_exist (b : AzureBackend) (container_name pre : String) :
    Bool :=
  match list_blobs b container_name pre with
  | .ok l => !l.isEmpty
  | .error _ => false

end AzureStorage

/-- A blob URL as produced by `blob_client.url`: it identifies the
source object by container and key. Only the URL, never the content,
is handed to the copy primitive. -/
structure BlobUrl where
  container : String
  key : String
deriving DecidableEq, Repr

/-- The properties dictionary returned by `start_copy_from_url`: the
operation handle the adapter passes back to its caller. -/
structure CopyProps where
  copy_id : String
  copy_status : String
deriving DecidableEq, Repr

/-- SDK primitive: `dest_blob_client.start_copy_from_url(url)`. The
service performs the copy on the server side from the source named by
the URL: it raises `ResourceNotFoundError` when the source object does
not resolve, and otherwise installs the source content at the target
and returns the copy properties. -/
def start_copy_from_url (b : AzureBackend) (src : BlobUrl)
    (target_container target_key : String) :
    Except PyExc (CopyProps × AzureBackend) :=
  match lookupBlob b.blobs src.container src.key with
  | none => .error (.resourceNotFound "CannotVerifyCopySource")
  | some d =>
    .ok (⟨"copy-1", "success"⟩,
      { b with blobs := setBlob b.blobs target_container target_key d })

namespace AzureStorage

/-- Embeds `AzureStorage.copy_object` (azure_storage.py lines 47-85):
build the source blob URL from the source client, then start the
server-side copy at the destination client and return the operation
properties; no exception handling of its own. -/
def copy_object (b : AzureBackend)
    (source_container source_key target_container target_key : String) :
    Except PyExc (CopyProps × AzureBackend) :=
  start_copy_from_url b ⟨source_container, source_key⟩
    target_container target_key

end AzureStorage

/-- The polymorphic `file` argument of `upload_object`: a Python value
that is a str (local file path), a BytesIO buffer with its byte
content and current stream position, or any other Python value. -/
inductive UploadSource where
  | path (p : String)
  | buffer (content : List Nat) (pos : Nat)
  | otherVal (descr : String)
deriving DecidableEq, Repr

/-- SDK primitive: `blob_client.upload_blob(data, overwrite=ow)`.
Raises `ResourceExistsError` when the blob exists and overwrite was
not requested; otherwise stores the data. -/
def upload_blob (b : AzureBackend) (c k : String) (data : List Nat)
    (overwrite : Bool) : Except PyExc AzureBackend :=
  match lookupBlob b.blobs c k, overwrite with
  | some _, false =>
    .error (.resourceExists "The specified blob already exists.")
  | _, _ => .ok { b with blobs := setBlob b.blobs c k data }

namespace AzureStorage

/-- Embeds `AzureStorage.upload_object` (azure_storage.py lines
277-306). A str source is opened and read (raising
`FileNotFoundError` when the local file is missing); a BytesIO source
is rewound with `seek(0)` and streamed from the resulting position to
its end; any other value raises `TypeError`. -/
def upload_object (b : AzureBackend) (fs : FS) (file : UploadSource)
    (container_name object_key : String) (overwrite : Bool) :
    Except PyExc AzureBackend :=
  match file with
  | .path p =>
    match lookupFile fs.files p with
    | none => .error (.fileNotFound p)
    | some data => upload_blob b container_name object_key data overwrite
  | .buffer content _pos =>
    let posAfterSeek : Nat := 0
    upload_blob b container_name object_key
      (content.drop posAfterSeek) overwrite
  | .otherVal _ =>
    .error (.typeError
      "File must be either a string (file path) or BytesIO object")

/-- Embeds `AzureStorage.read_into_df` (azure_storage.py lines
236-275), abstracting `pandas.read_csv` (with the separator, header
and na_values arguments already applied) as the function `parse`,
which may itself raise: fetch the object through `get_object`, return
None when it is None, and otherwise parse the buffer into a
DataFrame. -/
def read_into_df {DF : Type} (parse : List Nat → Except PyExc DF)
    (b : AzureBackend) (container_name object_key : String) :
    Except PyExc (Option DF) :=
  match get_object b container_name object_key with
  | .error e => .error e
  | .ok none => .ok none
  | .ok (some blob_data) =>
    match parse blob_data with
    | .ok df => .ok (some df)
    | .error e => .error e

end AzureStorage

/-- Python object allocation state: each constructor call takes the
next identity. Distinct identities model distinct Python instances. -/
structure Heap where
  next : Nat
deriving DecidableEq, Repr

/-- An `AzureStorage` instance, identified by its allocation identity. -/
structure AzureStorageObj where
  objId : Nat
deriving DecidableEq, Repr

/-- An `AzureProvider` instance, identified by its allocation
identity. -/
structure AzureProviderObj where
  objId : Nat
deriving DecidableEq, Repr

/-- Embeds Python `str.lower()` (the provider-type strings are
ASCII). -/
def pyLower (s : String) : String :=
  String.mk (s.data.map Char.toLower)

/-- The string `s` is a casing of "azure": five characters, each the
corresponding letter in lower or upper case. -/
def isCasingOfAzure (s : String) : Bool :=
  s.data.length = 5 &&
  (List.zip s.data ['a', 'z', 'u', 'r', 'e']).all
    (fun q => q.1 = q.2 || q.1 = q.2.toUpper)

namespace ProviderFactory

/-- Embeds `ProviderFactory.get_provider` (provider_factory.py lines
8-17): lower-case the provider-type string; on "azure" construct and
return an `AzureProvider`, otherwise raise
`ValueError("Unknown provider type: ...")`. Construction allocates a
fresh instance on the heap. -/
def get_provider (provider_type : String) (h : Heap) :
    Except PyExc (AzureProviderObj × Heap) :=
  if pyLower provider_type = "azure" then
    .ok (⟨h.next⟩, ⟨h.next + 1⟩)
  else
    .error (.valueError ("Unknown provider type: " ++ provider_type))

end ProviderFactory

namespace AzureProvider

/-- Embeds the `AzureProvider.storage` property (azure_provider.py
lines 16-19): the property body is `return AzureStorage(self._logger,
**self._kwargs)`, a constructor call, so each access allocates a fresh
`AzureStorage` instance. -/
def storage (_p : AzureProviderObj) (h : Heap) : AzureStorageObj × Heap :=
  (⟨h.next⟩, ⟨h.next + 1⟩)

end AzureProvider

/-- Resolution of the `provider_type` argument inside
`CloudProvider.__init__` (cloud_provider.py lines 10-17). The argument
is `none` when the caller omits it (Python then binds the parameter
default `'Azure'`) and `some v` when the caller supplies the Python
value `v`, itself `none` for Python None. Only a supplied None reaches
the `os.getenv('CLOUD_PROVIDER', 'Azure')` lookup; `env` is the value
of that environment variable. -/
def resolve_provider_type (arg : Option (Option String))
    (env : Option String) : String :=
  let provider_type : Option String :=
    match arg with
    | none => some "Azure"
    | some v => v
  match provider_type with
  | some s => s
  | none => env.getD "Azure"

/-- Modelled from the spec: the resolution order the spec states for
`CloudProvider.__init__` — an explicitly supplied (non-None)
constructor argument first, else the `CLOUD_PROVIDER` environment
variable, else the fixed default "Azure". Argument encoding as in
`resolve_provider_type`. -/
def resolve_provider_type_spec (arg : Option (Option String))
    (env : Option String) : String :=
  match arg with
  | some (some s) => s
  | _ => env.getD "Azure"

/-- A `CloudProvider` instance: it holds the one provider constructed
in `__init__`. -/
structure CloudProviderObj where
  provider : AzureProviderObj
deriving DecidableEq, Repr

namespace CloudProvider

/-- Embeds `CloudProvider.__init__` (cloud_provider.py lines 10-23):
resolve the provider type, ask `ProviderFactory` for the provider and
hold it in `self._provider`. -/
def init (arg : Option (Option String)) (env : Option String) (h : Heap) :
    Except PyExc (CloudProviderObj × Heap) :=
  match ProviderFactory.get_provider (resolve_provider_type arg env) h with
  | .ok (p, h1) => .ok (⟨p⟩, h1)
  | .error e => .error e

/-- Embeds the `CloudProvider.storage` property (cloud_provider.py
lines 29-32): `return self._provider.storage`. -/
def storage (cp : CloudProviderObj) (h : Heap) : AzureStorageObj × Heap :=
  AzureProvider.storage cp.provider h

end CloudProvider

/-- Helper: a successful `ProviderFactory.get_provider` call returns
the freshly allocated provider and bumps the heap by one. -/
theorem get_provider_ok (pt : String) (h : Heap) (p : AzureProviderObj)
    (h1 : Heap) (hp : ProviderFactory.get_provider pt h = .ok (p, h1)) :
    p = ⟨h.next⟩ ∧ h1 = ⟨h.next + 1⟩ := by
  unfold ProviderFactory.get_provider at hp
  split at hp
  · simp only [Except.ok.injEq, Prod.mk.injEq] at hp
    exact ⟨hp.1.symm, hp.2.symm⟩
  · simp at hp

/-- C1: for every (container, key) pair whose object does not exist in
the store, `get_object` returns None rather than raising a not-found
error, and for every pair whose object exists it returns the object
content as an in-memory byte buffer (assuming no unrelated backend
fault). -/
theorem C1_get_object_absent_or_content (b : AzureBackend) (c k : String)
    (hf : b.downloadFault = none) :
    (lookupBlob b.blobs c k = none →
      AzureStorage.get_object b c k = .ok none) ∧
    (∀ d, lookupBlob b.blobs c k = some d →
      AzureStorage.get_object b c k = .ok (some d)) := by
  constructor
  · intro h
    simp [AzureStorage.get_object, download_blob, hf, h]
  · intro d h
    simp [AzureStorage.get_object, download_blob, hf, h]

theorem C1_get_object_witness :
    AzureStorage.get_object ⟨[("c", "k", [1, 2])], none, none⟩ "c" "x"
      = .ok none ∧
    AzureStorage.get_object ⟨[("c", "k", [1, 2])], none, none⟩ "c" "k"
      = .ok (some [1, 2]) :=
  ⟨(C1_get_object_absent_or_content
      ⟨[("c", "k", [1, 2])], none, none⟩ "c" "x" rfl).1 (by decide),
   (C1_get_object_absent_or_content
      ⟨[("c", "k", [1, 2])], none, none⟩ "c" "k" rfl).2 [1, 2] (by decide)⟩

/-- C2 counterexample: downloading a missing blob raises the
translated `FileNotFoundError`, yet it leaves a file at the
destination path: on a filesystem where no file existed at
"dir/f.txt", the failed call leaves an empty file there, so it is
false that either no file is created or the file is removed on
failure. -/
theorem C2_counterexample :
    (AzureStorage.download_object ⟨[], none, none⟩ ⟨[], []⟩
      "c" "k" "dir/f.txt").1
      = .error (.fileNotFound "Blob not found: c/k") ∧
    lookupFile (⟨[], []⟩ : FS).files "dir/f.txt" = none ∧
    lookupFile (AzureStorage.download_object ⟨[], none, none⟩ ⟨[], []⟩
      "c" "k" "dir/f.txt").2.files "dir/f.txt" = some [] := by
  decide

/-- C2 (amended): when the object does not exist, `download_object`
raises a `FileNotFoundError` translated from the backend
`ResourceNotFoundError`, but the destination file has already been
opened for writing, so an empty file is created (or an existing file
truncated to empty) at the destination path and is left there on
failure. -/
theorem C2_download_object_notfound (b : AzureBackend) (fs : FS)
    (c k path : String) (hd : pyDirname path ≠ "")
    (habs : lookupBlob b.blobs c k = none)
    (hf : b.downloadFault = none) :
    (AzureStorage.download_object b fs c k path).1
      = .error (.fileNotFound ("Blob not found: " ++ c ++ "/" ++ k)) ∧
    lookupFile (AzureStorage.download_object b fs c k path).2.files path
      = some [] := by
  constructor <;>
    simp [AzureStorage.download_object, makedirs, hd, download_blob, hf,
      habs, lookupFile_setFile]

theorem C2_download_object_witness :
    (AzureStorage.download_object ⟨[], none, none⟩ ⟨[], []⟩
      "c" "k" "d/f").1
      = .error (.fileNotFound ("Blob not found: " ++ "c" ++ "/" ++ "k")) ∧
    lookupFile (AzureStorage.download_object ⟨[], none, none⟩ ⟨[], []⟩
      "c" "k" "d/f").2.files "d/f" = some [] :=
  C2_download_object_notfound ⟨[], none, none⟩ ⟨[], []⟩ "c" "k" "d/f"
    (by decide) (by decide) rfl

/-- C3 counterexample: with the constructor argument omitted and the
`CLOUD_PROVIDER` environment variable set to "aws", the code resolves
the provider type to the parameter default "Azure" without consulting
the environment variable, while the claimed priority order resolves it
to "aws". -/
theorem C3_counterexample :
    resolve_provider_type none (some "aws") = "Azure" ∧
    resolve_provider_type_spec none (some "aws") = "aws" ∧
    resolve_provider_type none (some "aws")
      ≠ resolve_provider_type_spec none (some "aws") := by
  decide

/-- C3 (amended): a supplied non-None constructor argument takes
precedence; a supplied None argument causes the `CLOUD_PROVIDER`
environment variable to be consulted with fixed default "Azure"; an
omitted argument resolves to the parameter default "Azure" and the
environment variable is never consulted. -/
theorem C3_resolve_provider_type_order (env : Option String) :
    (∀ s, resolve_provider_type (some (some s)) env = s) ∧
    resolve_provider_type (some none) env = env.getD "Azure" ∧
    resolve_provider_type none env = "Azure" :=
  ⟨fun _ => rfl, rfl, rfl⟩

/-- C4 counterexample: constructing a `CloudProvider` from a fresh
heap allocates one provider (instance 0), but two successive reads of
its storage property yield the distinct `AzureStorage` instances 1 and
2, so it is false that every access yields the same Storage instance
constructed once. -/
theorem C4_counterexample :
    CloudProvider.init (some (some "azure")) none ⟨0⟩
      = .ok (⟨⟨0⟩⟩, ⟨1⟩) ∧
    (CloudProvider.storage ⟨⟨0⟩⟩ ⟨1⟩).1 = ⟨1⟩ ∧
    (CloudProvider.storage ⟨⟨0⟩⟩
      (CloudProvider.storage ⟨⟨0⟩⟩ ⟨1⟩).2).1 = ⟨2⟩ ∧
    (⟨1⟩ : AzureStorageObj) ≠ ⟨2⟩ := by
  decide

/-- C4 (amended): over the lifetime of one `CloudProvider` exactly one
provider instance is constructed in `__init__` and held, but the
provider does not hold a Storage adapter: every access to the storage
property constructs a fresh `AzureStorage` instance, so two accesses
never yield the same instance. -/
theorem C4_provider_once_storage_fresh (arg : Option (Option String))
    (env : Option String) (h : Heap) (cp : CloudProviderObj) (h1 : Heap)
    (hinit : CloudProvider.init arg env h = .ok (cp, h1)) :
    (cp.provider = ⟨h.next⟩ ∧ h1 = ⟨h.next + 1⟩) ∧
    (∀ h2 : Heap, CloudProvider.storage cp h2
      = (⟨h2.next⟩, ⟨h2.next + 1⟩)) ∧
    (∀ h2 : Heap, (CloudProvider.storage cp h2).1
      ≠ (CloudProvider.storage cp
          (CloudProvider.storage cp h2).2).1) := by
  refine ⟨?_, fun h2 => rfl, fun h2 => ?_⟩
  · unfold CloudProvider.init at hinit
    split at hinit
    · rename_i p h1x hp
      obtain ⟨hpeq, hheq⟩ := get_provider_ok _ h p h1x hp
      simp only [Except.ok.injEq, Prod.mk.injEq] at hinit
      obtain ⟨hcp, hh1⟩ := hinit
      subst hcp hh1
      exact ⟨hpeq, hheq⟩
    · simp at hinit
  · simp only [CloudProvider.storage, AzureProvider.storage, ne_eq,
      AzureStorageObj.mk.injEq]
    omega

theorem C4_storage_fresh_witness :
    (CloudProvider.storage ⟨⟨0⟩⟩ ⟨1⟩).1
      ≠ (CloudProvider.storage ⟨⟨0⟩⟩
          (CloudProvider.storage ⟨⟨0⟩⟩ ⟨1⟩).2).1 :=
  (C4_provider_once_storage_fresh (some (some "azure")) none ⟨0⟩ ⟨⟨0⟩⟩ ⟨1⟩
    (by decide)).2.2 ⟨1⟩

/-- C5: `objects_exist` is true exactly when `list_objects` on the
same container and prefix returns a non-empty sequence, and whenever
the backend listing call errors, `objects_exist` returns false rather
than raising. -/
theorem C5_objects_exist_iff_list_nonempty (b : AzureBackend)
    (c pre : String) :
    (AzureStorage.objects_exist b c pre = true ↔
      ∃ l, AzureStorage.list_objects b c pre = .ok l ∧ l ≠ []) ∧
    (∀ m, b.listFault = some m →
      AzureStorage.objects_exist b c pre = false) := by
  constructor
  · rcases hl : b.listFault with _ | m
    · simp [AzureStorage.objects_exist, AzureStorage.list_objects,
        list_blobs, hl]
    · simp [AzureStorage.objects_exist, AzureStorage.list_objects,
        list_blobs, hl]
  · intro m hm
    simp [AzureStorage.objects_exist, list_blobs, hm]

theorem C5_objects_exist_witness :
    AzureStorage.objects_exist
      ⟨[("c", "dir1/a", [])], none, some "boom"⟩ "c" "dir1/" = false :=
  (C5_objects_exist_iff_list_nonempty
    ⟨[("c", "dir1/a", [])], none, some "boom"⟩ "c" "dir1/").2 "boom" rfl

/-- Helper: every casing of "azure" lower-cases to "azure". -/
theorem pyLower_eq_azure_of_casing (s : String)
    (h : isCasingOfAzure s = true) : pyLower s = "azure" := by
  obtain ⟨l⟩ := s
  simp only [isCasingOfAzure, Bool.and_eq_true, decide_eq_true_eq,
    List.all_eq_true] at h
  obtain ⟨hlen, hall⟩ := h
  match l, hlen with
  | [a, b, c, d, e], _ =>
    have ha := hall (a, 'a') (by simp [List.zip])
    have hb := hall (b, 'z') (by simp [List.zip])
    have hc := hall (c, 'u') (by simp [List.zip])
    have hd := hall (d, 'r') (by simp [List.zip])
    have he := hall (e, 'e') (by simp [List.zip])
    simp only [Bool.or_eq_true, decide_eq_true_eq] at ha hb hc hd he
    rcases ha with rfl | rfl <;> rcases hb with rfl | rfl <;>
      rcases hc with rfl | rfl <;> rcases hd with rfl | rfl <;>
      rcases he with rfl | rfl <;> decide

/-- C6: for every provider-type string that is a casing of "azure",
`ProviderFactory.get_provider` constructs and returns an
`AzureProvider`, and for every string that does not match "azure"
case-insensitively it raises `ValueError` (the unsupported-provider
error). -/
theorem C6_get_provider_contract (pt : String) (h : Heap) :
    (isCasingOfAzure pt = true →
      ProviderFactory.get_provider pt h = .ok (⟨h.next⟩, ⟨h.next + 1⟩)) ∧
    (pyLower pt ≠ "azure" →
      ProviderFactory.get_provider pt h
        = .error (.valueError ("Unknown provider type: " ++ pt))) := by
  constructor
  · intro hc
    simp [ProviderFactory.get_provider, pyLower_eq_azure_of_casing pt hc]
  · intro hne
    simp [ProviderFactory.get_provider, hne]

theorem C6_get_provider_witness :
    ProviderFactory.get_provider "AzUrE" ⟨0⟩ = .ok (⟨0⟩, ⟨1⟩) ∧
    ProviderFactory.get_provider "unknown-xyz" ⟨0⟩
      = .error (.valueError ("Unknown provider type: " ++ "unknown-xyz")) :=
  ⟨(C6_get_provider_contract "AzUrE" ⟨0⟩).1 (by decide),
   (C6_get_provider_contract "unknown-xyz" ⟨0⟩).2 (by decide)⟩

/-- C7: `copy_object` fails with the backend not-found error when the
source object reference does not resolve; when the source resolves it
initiates the server-side copy from the source URL (the adapter hands
the backend only the URL, never the content) and returns the operation
handle, with the source content installed at the target. -/
theorem C7_copy_object_contract (b : AzureBackend)
    (sc sk tc tk : String) :
    (lookupBlob b.blobs sc sk = none →
      AzureStorage.copy_object b sc sk tc tk
        = .error (.resourceNotFound "CannotVerifyCopySource")) ∧
    (∀ d, lookupBlob b.blobs sc sk = some d →
      ∃ props b2,
        AzureStorage.copy_object b sc sk tc tk = .ok (props, b2) ∧
        lookupBlob b2.blobs tc tk = some d) := by
  constructor
  · intro h
    simp [AzureStorage.copy_object, start_copy_from_url, h]
  · intro d h
    refine ⟨⟨"copy-1", "success"⟩,
      { b with blobs := setBlob b.blobs tc tk d }, ?_, ?_⟩
    · simp [AzureStorage.copy_object, start_copy_from_url, h]
    · exact lookupBlob_setBlob b.blobs tc tk d

theorem C7_copy_object_witness :
    AzureStorage.copy_object ⟨[], none, none⟩ "a" "b" "t" "u"
      = .error (.resourceNotFound "CannotVerifyCopySource") ∧
    ∃ props b2,
      AzureStorage.copy_object ⟨[("a", "b", [9])], none, none⟩
        "a" "b" "t" "u" = .ok (props, b2) ∧
      lookupBlob b2.blobs "t" "u" = some [9] :=
  ⟨(C7_copy_object_contract ⟨[], none, none⟩ "a" "b" "t" "u").1
      (by decide),
   (C7_copy_object_contract ⟨[("a", "b", [9])], none, none⟩
      "a" "b" "t" "u").2 [9] (by decide)⟩

/-- C8: `upload_object` raises `TypeError` for every source that is
neither a str path nor a BytesIO buffer; a buffer source is uploaded
identically regardless of its stream position on entry (it is rewound
first), and a successful buffer upload stores the full buffer
content. -/
theorem C8_upload_object_contract (b : AzureBackend) (fs : FS)
    (c k : String) (ow : Bool) :
    (∀ descr, AzureStorage.upload_object b fs (.otherVal descr) c k ow
      = .error (.typeError
          "File must be either a string (file path) or BytesIO object")) ∧
    (∀ content pos,
      AzureStorage.upload_object b fs (.buffer content pos) c k ow
        = AzureStorage.upload_object b fs (.buffer content 0) c k ow) ∧
    (∀ content pos b2,
      AzureStorage.upload_object b fs (.buffer content pos) c k ow
        = .ok b2 → lookupBlob b2.blobs c k = some content) := by
  refine ⟨fun _ => rfl, fun _ _ => rfl, fun content pos b2 hup => ?_⟩
  simp only [AzureStorage.upload_object, List.drop_zero, upload_blob] at hup
  rcases hlk : lookupBlob b.blobs c k with _ | old <;> rw [hlk] at hup
  · simp only [Except.ok.injEq] at hup
    subst hup
    exact lookupBlob_setBlob b.blobs c k content
  · rcases ow with _ | _
    · simp at hup
    · simp only [Except.ok.injEq] at hup
      subst hup
      exact lookupBlob_setBlob b.blobs c k content

theorem C8_upload_object_witness :
    AzureStorage.upload_object ⟨[], none, none⟩ ⟨[], []⟩
      (.otherVal "int") "c" "k" true
      = .error (.typeError
          "File must be either a string (file path) or BytesIO object") ∧
    AzureStorage.upload_object ⟨[], none, none⟩ ⟨[], []⟩
      (.buffer [5, 6] 1) "c" "k" true
      = AzureStorage.upload_object ⟨[], none, none⟩ ⟨[], []⟩
          (.buffer [5, 6] 0) "c" "k" true ∧
    lookupBlob
      (⟨[("c", "k", [5, 6])], none, none⟩ : AzureBackend).blobs "c" "k"
      = some [5, 6] :=
  ⟨(C8_upload_object_contract ⟨[], none, none⟩ ⟨[], []⟩ "c" "k" true).1
      "int",
   (C8_upload_object_contract ⟨[], none, none⟩ ⟨[], []⟩ "c" "k" true).2.1
      [5, 6] 1,
   (C8_upload_object_contract ⟨[], none, none⟩ ⟨[], []⟩ "c" "k" true).2.2
      [5, 6] 1 ⟨[("c", "k", [5, 6])], none, none⟩ (by decide)⟩

/-- C9: `read_into_df` returns None exactly when `get_object` on the
same (container, key) returns None, and when the object is present it
returns the table parsed from the fetched buffer. -/
theorem C9_read_into_df_absence {DF : Type}
    (parse : List Nat → Except PyExc DF) (b : AzureBackend)
    (c k : String) :
    (AzureStorage.read_into_df parse b c k = .ok none ↔
      AzureStorage.get_object b c k = .ok none) ∧
    (∀ d, AzureStorage.get_object b c k = .ok (some d) →
      AzureStorage.read_into_df parse b c k = (parse d).map some) := by
  constructor
  · rcases hg : AzureStorage.get_object b c k with e | od
    · simp [AzureStorage.read_into_df, hg]
    · rcases od with _ | d
      · simp [AzureStorage.read_into_df, hg]
      · rcases hp : parse d with e | df <;>
          simp [AzureStorage.read_into_df, hg, hp]
  · intro d hg
    rcases hp : parse d with e | df <;>
      simp [AzureStorage.read_into_df, hg, hp, Except.map]

theorem C9_read_into_df_witness :
    AzureStorage.read_into_df
      (fun d => .ok d.length : List Nat → Except PyExc Nat)
      ⟨[("c", "k", [5, 6])], none, none⟩ "c" "x" = .ok none ∧
    AzureStorage.read_into_df
      (fun d => .ok d.length : List Nat → Except PyExc Nat)
      ⟨[("c", "k", [5, 6])], none, none⟩ "c" "k" = .ok (some 2) :=
  ⟨(C9_read_into_df_absence
      (fun d => .ok d.length : List Nat → Except PyExc Nat)
      ⟨[("c", "k", [5, 6])], none, none⟩ "c" "x").1.mpr (by decide),
   (C9_read_into_df_absence
      (fun d => .ok d.length : List Nat → Except PyExc Nat)
      ⟨[("c", "k", [5, 6])], none, none⟩ "c" "k").2 [5, 6] (by decide)⟩

/-- C10: for every destination path with no directory component (its
parent-directory part is the empty string), `download_object` raises
the filesystem error from the `os.makedirs` step, leaves the
filesystem unchanged, and its outcome does not depend on the backend
at all (in particular it fails even when the requested object
exists). -/
theorem C10_download_object_bare_filename (b b2 : AzureBackend)
    (fs : FS) (c k path : String) (hd : pyDirname path = "") :
    AzureStorage.download_object b fs c k path
      = (.error (.fileNotFound "No such file or directory: "), fs) ∧
    AzureStorage.download_object b fs c k path
      = AzureStorage.download_object b2 fs c k path := by
  constructor <;> simp [AzureStorage.download_object, makedirs, hd]

theorem C10_download_object_witness :
    AzureStorage.download_object ⟨[("c", "k", [1])], none, none⟩
      ⟨[], []⟩ "c" "k" "file.txt"
      = (.error (.fileNotFound "No such file or directory: "), ⟨[], []⟩) :=
  (C10_download_object_bare_filename ⟨[("c", "k", [1])], none, none⟩
    ⟨[], none, none⟩ ⟨[], []⟩ "c" "k" "file.txt" (by decide)).1
